import Mathlib

/-!
# RTC::RtpStreamRecv

A shallow embedding of `worker/src/RTC/RtpStreamRecv.cpp`: the receive side of
one RTP stream.  It keeps the statistics an RTCP receiver report needs, records
the arrival of sender reports, and asks its listener for retransmissions (NACK)
and key frames (PLI).

Conventions of the embedding.

* Unsigned machine integers are natural numbers; every C++ operation on them is
  followed by an explicit reduction modulo `2 ^ 32` or `2 ^ 64`.
* Signed 32-bit integers are integers in `[-2 ^ 31, 2 ^ 31)`; conversions to
  `int` and signed arithmetic keep the low 32 bits (two's complement), which is
  what the supported compilers do.
* The one floating-point expression (line 167) is exact in double precision on
  its operands, so rational numbers stand for the doubles; the store into the
  integer field discards the fractional part and keeps the low 32 bits.
* `DepLibUV::GetTime()` is an argument `now` of every operation that reads the
  clock (an unsigned 64-bit number of milliseconds).
* Calls that leave the class (listener, NackGenerator, logger) are recorded, in
  order, as a list of `Effect`s; so is the call of `CalculateJitter`, which
  reads the clock, so that the order of the steps of `ReceivePacket` can be
  read from the list.
* `MS_ASSERT` aborts the process: operations that can abort return `Except`.
-/

namespace RTC

/-! ## Machine arithmetic -/

/-- Value of an unsigned 8-bit conversion. -/
def u8 (n : Nat) : Nat := n % 2 ^ 8

/-- Value of an unsigned 32-bit conversion. -/
def u32 (n : Nat) : Nat := n % 2 ^ 32

/-- Value of an unsigned 64-bit conversion. -/
def u64 (n : Nat) : Nat := n % 2 ^ 64

/-- Unsigned 32-bit addition. -/
def add32 (a b : Nat) : Nat := (u32 a + u32 b) % 2 ^ 32

/-- Unsigned 32-bit subtraction. -/
def sub32 (a b : Nat) : Nat := (u32 a + 2 ^ 32 - u32 b) % 2 ^ 32

/-- Unsigned 64-bit subtraction. -/
def sub64 (a b : Nat) : Nat := (u64 a + 2 ^ 64 - u64 b) % 2 ^ 64

/-- Unsigned 32-bit multiplication. -/
def mul32 (a b : Nat) : Nat := (u32 a * u32 b) % 2 ^ 32

/-- Unsigned 32-bit left shift. -/
def shl32 (a k : Nat) : Nat := (u32 a <<< k) % 2 ^ 32

/-- The low 32 bits of `n` read as a signed 32-bit integer. -/
def toInt32 (n : Nat) : Int :=
  if n % 2 ^ 32 < 2 ^ 31 then ((n % 2 ^ 32 : Nat) : Int)
  else ((n % 2 ^ 32 : Nat) : Int) - 2 ^ 32

/-- The unsigned 32-bit value with the same low 32 bits as the integer `i`. -/
def ofInt32 (i : Int) : Nat := (i % 2 ^ 32).toNat

/-- Result of signed 32-bit arithmetic: the exact result `i` reduced to the
signed 32-bit range. -/
def wrapInt32 (i : Int) : Int := toInt32 (ofInt32 i)

/-- Smallest signed 32-bit integer. -/
def INT32_MIN : Int := -(2 ^ 31)

/-! ## Data model -/

/-- Modelled from the spec: the media type of the stream, audio or video
(`RTC::RtpCodecMime::Type`, whose declaration is not part of this file). -/
inductive MimeType where
  | AUDIO
  | VIDEO
  deriving DecidableEq, Repr

/-- Header extensions this class maps (`RtpHeaderExtensionUri::Type`). -/
inductive ExtensionType where
  | SSRC_AUDIO_LEVEL
  | ABS_SEND_TIME
  deriving DecidableEq, Repr

/-- The fields of `RtpStream::Params` that this class reads. -/
structure Params where
  ssrc : Nat
  mime : MimeType
  clockRate : Nat
  useNack : Bool
  usePli : Bool
  ssrcAudioLevelId : Nat
  absSendTimeId : Nat
  deriving DecidableEq, Repr

/-- The parts of an `RTC::RtpPacket` that this class reads or writes. -/
structure RtpPacket where
  sequenceNumber : Nat
  timestamp : Nat
  extensionMap : List (ExtensionType × Nat)
  deriving DecidableEq, Repr

/-- Effect of `packet->AddExtensionMapping(type, id)`. -/
def RtpPacket.AddExtensionMapping (p : RtpPacket) (t : ExtensionType) (id : Nat) : RtpPacket :=
  { p with extensionMap := p.extensionMap ++ [(t, id)] }

/-- Modelled from the spec: the retransmission estimator `RTC::NackGenerator`,
whose source is not part of this file.  The spec says only that it consumes
each accepted packet and is recreated, not reset, on reinitialisation; its state
is the list of packets handed to it since it was created. -/
structure NackGenerator where
  packets : List RtpPacket
  deriving DecidableEq, Repr

/-- A freshly constructed estimator (`new RTC::NackGenerator(this)`). -/
def NackGenerator.fresh : NackGenerator := { packets := [] }

/-- Effect of `nackGenerator->ReceivePacket(packet)`. -/
def NackGenerator.ReceivePacket (g : NackGenerator) (p : RtpPacket) : NackGenerator :=
  { g with packets := g.packets ++ [p] }

/-- Calls made by the methods, in the order they are made: the calls that leave
the class, and the call `CalculateJitter(packet->GetTimestamp())` of line 53. -/
inductive Effect where
  | listenerOnPliRequired
  | listenerOnNackRequired (seqNumbers : List Nat)
  | nackGeneratorNew
  | nackGeneratorReceivePacket (packet : RtpPacket)
  | calculateJitter (rtpTimestamp : Nat)
  | logDebug
  | logWarn
  deriving DecidableEq, Repr

/-- Ways an operation can end the process instead of returning. -/
inductive Fault where
  | assertFailed
  | nullNackGenerator
  | emptySeqNumbers
  deriving DecidableEq, Repr

/-- Modelled from the spec: the declarations of the fields (`RtpStream.hpp`,
`RtpStreamRecv.hpp`) are not part of this file.  The state of one receive
stream is the fields of the base class `RtpStream` that this file reads or
writes, followed by the fields of `RtpStreamRecv`.  `cycles`, `baseSeq`,
`received`, `expectedPrior`, `receivedPrior`, `maxTimestamp` and
`lastSrTimestamp` are unsigned 32-bit, `maxSeq` is unsigned 16-bit,
`lastSrReceived` is an unsigned 64-bit clock reading, and `transit` holds the
signed 32-bit value of line 164.  `jitter` is an unsigned 32-bit integer: line
39 list-initialises `Json::UInt{ this->jitter }`, which admits no narrowing
from a floating type, so the field is not the double of the spec and line 167
converts back to the integer at every store. -/
structure RtpStreamRecv where
  params : Params
  maxSeq : Nat
  cycles : Nat
  baseSeq : Nat
  received : Nat
  expectedPrior : Nat
  receivedPrior : Nat
  maxTimestamp : Nat
  lastSrTimestamp : Nat
  lastSrReceived : Nat
  transit : Int
  jitter : Nat
  nackGenerator : Option NackGenerator
  deriving DecidableEq

/-- Modelled from the spec: the initial values of the fields, whose declarations
are not part of this file.  The constructor starts every counter at zero
(jitter = 0, no sender report received) and creates no estimator. -/
def RtpStreamRecv.new (params : Params) : RtpStreamRecv :=
  { params := params, maxSeq := 0, cycles := 0, baseSeq := 0, received := 0,
    expectedPrior := 0, receivedPrior := 0, maxTimestamp := 0,
    lastSrTimestamp := 0, lastSrReceived := 0, transit := 0, jitter := 0,
    nackGenerator := none }

/-- The values handed to the setters of `RTC::RTCP::ReceiverReport`, one field
per setter. -/
structure ReceiverReport where
  totalLost : Int
  fractionLost : Nat
  lastSeq : Nat
  jitter : Nat
  delaySinceLastSenderReport : Nat
  lastSenderReport : Nat
  deriving DecidableEq

/-! ## Receiver report -/

/-- Line 82: `uint32_t expected = (cycles + maxSeq) - baseSeq + 1`. -/
def expected (s : RtpStreamRecv) : Nat :=
  add32 (sub32 (add32 s.cycles s.maxSeq) s.baseSeq) 1

/-- Line 88: `uint32_t expectedInterval = expected - expectedPrior`. -/
def expectedInterval (s : RtpStreamRecv) : Nat :=
  sub32 (expected s) s.expectedPrior

/-- Line 92: `uint32_t receivedInterval = received - receivedPrior`. -/
def receivedInterval (s : RtpStreamRecv) : Nat :=
  sub32 s.received s.receivedPrior

/-- Line 96: `int32_t lostInterval = expectedInterval - receivedInterval`. -/
def lostInterval (s : RtpStreamRecv) : Int :=
  toInt32 (sub32 (expectedInterval s) (receivedInterval s))

/-- Lines 97-102: the 8-bit fraction lost.  In the `else` branch the signed
shift keeps the low 32 bits, the division is unsigned 32-bit because its right
operand is, and the assignment to `uint8_t` keeps the low 8 bits. -/
def fractionLost (s : RtpStreamRecv) : Nat :=
  if expectedInterval s = 0 ∨ lostInterval s ≤ 0 then 0
  else u8 (ofInt32 (wrapInt32 (lostInterval s * 2 ^ 8)) / expectedInterval s)

/-- Line 113: `static_cast<uint32_t>(GetTime() - lastSrReceived)`. -/
def delayMs (s : RtpStreamRecv) (now : Nat) : Nat :=
  u32 (sub64 now s.lastSrReceived)

/-- Lines 115-117: the delay in units of 1/65536 seconds. -/
def dlsr (delayMs : Nat) : Nat :=
  shl32 (delayMs / 1000) 16 ||| u32 (mul32 (delayMs % 1000) 65536 / 1000)

/-- The method `GetRtcpReceiverReport`: the report and the stream afterwards. -/
def GetRtcpReceiverReport (s : RtpStreamRecv) (now : Nat) : ReceiverReport × RtpStreamRecv :=
  let totalLost : Int := toInt32 (sub32 (expected s) s.received)
  let report : ReceiverReport :=
    { totalLost := totalLost
      fractionLost := fractionLost s
      lastSeq := add32 (u32 s.maxSeq) s.cycles
      jitter := s.jitter
      delaySinceLastSenderReport := if s.lastSrReceived ≠ 0 then dlsr (delayMs s now) else 0
      lastSenderReport := if s.lastSrReceived ≠ 0 then s.lastSrTimestamp else 0 }
  (report, { s with expectedPrior := expected s, receivedPrior := s.received })

/-! ## Sender report -/

/-- The method `ReceiveRtcpSenderReport`; `ntpSec` and `ntpFrac` are what
`GetNtpSec()` and `GetNtpFrac()` return. -/
def ReceiveRtcpSenderReport (s : RtpStreamRecv) (ntpSec ntpFrac now : Nat) : RtpStreamRecv :=
  let ts := shl32 ntpSec 16
  { s with lastSrReceived := now, lastSrTimestamp := add32 ts (ntpFrac >>> 16) }

/-! ## Jitter -/

/-- Lines 160-161: the transit time of a packet, converted to `int`. -/
def transitOf (clockRate now rtpTimestamp : Nat) : Int :=
  toInt32 (sub64 now (mul32 rtpTimestamp 1000 / u32 clockRate))

/-- Lines 162-166: `d = transit - this->transit; if (d < 0) d = -d;`. -/
def absDelta (transit previous : Int) : Int :=
  let d := wrapInt32 (transit - previous)
  if d < 0 then wrapInt32 (-d) else d

/-- Conversion of a double to `uint32_t`: the fractional part is discarded
(truncation toward zero) and the low 32 bits of the integer are kept.  For a
truncated value outside `[0, 2 ^ 32)` the C++ standard leaves the result
undefined; the low 32 bits are what the x86-64 compilers store. -/
def doubleToU32 (x : ℚ) : Nat := ofInt32 (if 0 ≤ x then ⌊x⌋ else ⌈x⌉)

/-- Line 167: `jitter += (1. / 16.) * (static_cast<double>(d) - jitter)`, with the
integer field converted to double, the sum formed in double and the result
converted back to the integer field.  The operands are integers below 2^33 in
magnitude and the results are multiples of 1/16 below 2^37, so every double
operation is exact. -/
def jitterUpdate (jitter : Nat) (d : Int) : Nat :=
  doubleToU32 ((jitter : ℚ) + (1 / 16) * ((d : ℚ) - (jitter : ℚ)))

/-- The method `CalculateJitter`. -/
def CalculateJitter (s : RtpStreamRecv) (now rtpTimestamp : Nat) : RtpStreamRecv :=
  if s.params.clockRate = 0 then s
  else
    let transit := transitOf s.params.clockRate now rtpTimestamp
    let d := absDelta transit s.transit
    { s with transit := transit, jitter := jitterUpdate s.jitter d }

/-! ## NACK and PLI -/

/-- A stream after an operation together with the calls the operation made. -/
structure Step where
  stream : RtpStreamRecv
  effects : List Effect
  deriving DecidableEq

/-- The method `RequestFullFrame`. -/
def RequestFullFrame (s : RtpStreamRecv) : Step :=
  if s.params.usePli then
    if s.params.useNack then
      { stream := { s with nackGenerator := some NackGenerator.fresh },
        effects := [Effect.nackGeneratorNew, Effect.listenerOnPliRequired] }
    else
      { stream := s, effects := [Effect.listenerOnPliRequired] }
  else
    { stream := s, effects := [] }

/-- The method `OnInitSeq`, which the base class calls when it (re)initialises
the sequence state. -/
def OnInitSeq (s : RtpStreamRecv) : Step :=
  let s1 := if s.params.useNack then { s with nackGenerator := some NackGenerator.fresh } else s
  let e1 := if s.params.useNack then [Effect.nackGeneratorNew] else []
  if s.params.mime = MimeType.VIDEO then
    { stream := s1, effects := e1 ++ [Effect.logDebug, Effect.listenerOnPliRequired] }
  else
    { stream := s1, effects := e1 }

/-- The method `OnNackRequired`.  The assertion aborts; the warning reads
`seqNumbers[0]`, which does not exist in an empty vector. -/
def OnNackRequired (s : RtpStreamRecv) (seqNumbers : List Nat) : Except Fault Step :=
  if s.params.useNack then
    match seqNumbers.head? with
    | none => Except.error Fault.emptySeqNumbers
    | some _ =>
      Except.ok { stream := s,
                  effects := [Effect.logWarn, Effect.listenerOnNackRequired seqNumbers] }
  else
    Except.error Fault.assertFailed

/-- The method `OnFullFrameRequired`. -/
def OnFullFrameRequired (s : RtpStreamRecv) : Step :=
  if s.params.usePli then
    { stream := s, effects := [Effect.logDebug, Effect.listenerOnPliRequired] }
  else
    { stream := s, effects := [Effect.logWarn] }

/-! ## Receiving a packet -/

/-- Modelled from the spec: what the base method `RtpStream::ReceivePacket`
(the sequence tracker, whose source is not part of this file) did with a
packet: whether it accepted it, whether it reinitialised the sequence state
(which calls the virtual `OnInitSeq`), and the values it left in its own
fields.  The fields of `RtpStreamRecv` are private to the derived class and
out of its reach. -/
structure BaseVerdict where
  accepted : Bool
  initSeq : Bool
  maxSeq : Nat
  cycles : Nat
  baseSeq : Nat
  received : Nat
  expectedPrior : Nat
  receivedPrior : Nat
  maxTimestamp : Nat
  deriving DecidableEq, Repr

/-- The base method as a parameter of the embedding. -/
abbrev BaseReceivePacket := RtpStreamRecv → RtpPacket → BaseVerdict

/-- The base fields after the base method ran. -/
def applyBase (s : RtpStreamRecv) (v : BaseVerdict) : RtpStreamRecv :=
  { s with maxSeq := v.maxSeq, cycles := v.cycles, baseSeq := v.baseSeq,
           received := v.received, expectedPrior := v.expectedPrior,
           receivedPrior := v.receivedPrior, maxTimestamp := v.maxTimestamp }

/-- Result of `ReceivePacket`: the returned flag, the packet with the extension
mappings added, the stream, and the calls made. -/
structure ReceiveResult where
  accepted : Bool
  packet : RtpPacket
  stream : RtpStreamRecv
  effects : List Effect
  deriving DecidableEq

/-- Lines 56-66: the two extension mappings. -/
def mapExtensions (params : Params) (p : RtpPacket) : RtpPacket :=
  let p1 := if params.ssrcAudioLevelId ≠ 0 then
      p.AddExtensionMapping ExtensionType.SSRC_AUDIO_LEVEL params.ssrcAudioLevelId else p
  if params.absSendTimeId ≠ 0 then
    p1.AddExtensionMapping ExtensionType.ABS_SEND_TIME params.absSendTimeId else p1

/-- Line 49, the call of the parent method `RtpStream::ReceivePacket`: the base
fields take the values the tracker left, and `OnInitSeq` runs if the tracker
reinitialised the sequence state.  The result is the tracker's answer and the
stream, with the calls made so far. -/
def parentReceivePacket (base : BaseReceivePacket) (s : RtpStreamRecv) (packet : RtpPacket) :
    Bool × Step :=
  let v := base s packet
  let s0 := applyBase s v
  (v.accepted, if v.initSeq then OnInitSeq s0 else { stream := s0, effects := [] })

/-- Lines 68-70: the packet goes to the NackGenerator when NACK is in use. -/
def passToNackGenerator (s : RtpStreamRecv) (p : RtpPacket) : Except Fault Step :=
  if s.params.useNack then
    match s.nackGenerator with
    | none => Except.error Fault.nullNackGenerator
    | some g =>
      Except.ok { stream := { s with nackGenerator := some (g.ReceivePacket p) },
                  effects := [Effect.nackGeneratorReceivePacket p] }
  else
    Except.ok { stream := s, effects := [] }

/-- Line 53: the call `CalculateJitter(packet->GetTimestamp())`, with its record
in the list of calls. -/
def callCalculateJitter (s : RtpStreamRecv) (now : Nat) (packet : RtpPacket) : Step :=
  { stream := CalculateJitter s now packet.timestamp,
    effects := [Effect.calculateJitter packet.timestamp] }

/-- The method `ReceivePacket`: the parent call, then, for an accepted packet,
the jitter step, the extension mappings and the estimator step, each starting
from the stream the step before it left; the calls are listed in that order. -/
def ReceivePacket (base : BaseReceivePacket) (s : RtpStreamRecv) (packet : RtpPacket)
    (now : Nat) : Except Fault ReceiveResult :=
  let r0 := parentReceivePacket base s packet
  if r0.1 = false then
    Except.ok { accepted := false, packet := packet, stream := r0.2.stream,
                effects := r0.2.effects }
  else
    let r1 := callCalculateJitter r0.2.stream now packet
    let p1 := mapExtensions r1.stream.params packet
    match passToNackGenerator r1.stream p1 with
    | Except.error f => Except.error f
    | Except.ok r2 =>
      Except.ok { accepted := true, packet := p1, stream := r2.stream,
                  effects := r0.2.effects ++ (r1.effects ++ r2.effects) }

/-! ## Sequences of operations -/

/-- The operations of a stream, with their arguments and clock readings. -/
inductive Op where
  | receivePacket (packet : RtpPacket) (now : Nat)
  | getRtcpReceiverReport (now : Nat)
  | receiveRtcpSenderReport (ntpSec ntpFrac now : Nat)
  | requestFullFrame
  | onInitSeq
  | onNackRequired (seqNumbers : List Nat)
  | onFullFrameRequired
  deriving DecidableEq

/-- Whether the operation is `ReceiveRtcpSenderReport`. -/
def Op.isSenderReport : Op → Bool
  | Op.receiveRtcpSenderReport _ _ _ => true
  | _ => false

/-- The stream after one operation, or the fault that ended the process. -/
def applyOp (base : BaseReceivePacket) (s : RtpStreamRecv) : Op → Except Fault RtpStreamRecv
  | Op.receivePacket packet now => (ReceivePacket base s packet now).map (fun r => r.stream)
  | Op.getRtcpReceiverReport now => Except.ok (GetRtcpReceiverReport s now).2
  | Op.receiveRtcpSenderReport ntpSec ntpFrac now =>
    Except.ok (ReceiveRtcpSenderReport s ntpSec ntpFrac now)
  | Op.requestFullFrame => Except.ok (RequestFullFrame s).stream
  | Op.onInitSeq => Except.ok (OnInitSeq s).stream
  | Op.onNackRequired seqNumbers => (OnNackRequired s seqNumbers).map (fun r => r.stream)
  | Op.onFullFrameRequired => Except.ok (OnFullFrameRequired s).stream

/-- The stream after a sequence of operations. -/
def runOps (base : BaseReceivePacket) (s : RtpStreamRecv) : List Op → Except Fault RtpStreamRecv
  | [] => Except.ok s
  | op :: ops =>
    match applyOp base s op with
    | Except.error f => Except.error f
    | Except.ok s1 => runOps base s1 ops

/-! ## Example streams and the spec's wording of two formulas -/

/-- Parameters of an audio stream without NACK or PLI. -/
def audioParams : Params :=
  { ssrc := 1, mime := MimeType.AUDIO, clockRate := 48000, useNack := false,
    usePli := false, ssrcAudioLevelId := 0, absSendTimeId := 0 }

/-- Parameters of a video stream with NACK and PLI. -/
def videoParams : Params :=
  { ssrc := 2, mime := MimeType.VIDEO, clockRate := 90000, useNack := true,
    usePli := true, ssrcAudioLevelId := 0, absSendTimeId := 3 }

/-- The stream of the worked example of the spec: expected = 100,
expectedPrior = 80, received = 90, receivedPrior = 75. -/
def reportExample : RtpStreamRecv :=
  { RtpStreamRecv.new audioParams with
    maxSeq := 99, expectedPrior := 80, received := 90, receivedPrior := 75 }

/-- A stream with 5 packets expected and 2^31 + 100 received since the last
report. -/
def excessExample : RtpStreamRecv :=
  { RtpStreamRecv.new audioParams with maxSeq := 4, received := 2 ^ 31 + 100 }

/-- A stream whose last sender report arrived at clock reading 1000. -/
def srExample : RtpStreamRecv :=
  { reportExample with lastSrReceived := 1000, lastSrTimestamp := 305419896 }

/-- The delay field as the spec words it: whole seconds in the high 16 bits and
the fractional part, `(delayMs % 1000) * 65536 / 1000`, rounded to the nearest
integer. -/
def dlsrRounded (delayMs : Nat) : Nat :=
  ((delayMs / 1000) <<< 16) ||| (round ((((delayMs % 1000 : Nat) : ℚ) * 65536) / 1000)).toNat

/-- An example of a base sequence tracker, used in the worked examples only: it
accepts every packet, initialises the sequence state on the first one and
afterwards counts the packet and keeps the highest sequence number. -/
def exampleTracker : BaseReceivePacket := fun s p =>
  if s.received = 0 then
    { accepted := true, initSeq := true, maxSeq := p.sequenceNumber, cycles := 0,
      baseSeq := p.sequenceNumber, received := 1, expectedPrior := 0, receivedPrior := 0,
      maxTimestamp := p.timestamp }
  else
    { accepted := true, initSeq := false, maxSeq := max s.maxSeq p.sequenceNumber,
      cycles := s.cycles, baseSeq := s.baseSeq, received := s.received + 1,
      expectedPrior := s.expectedPrior, receivedPrior := s.receivedPrior,
      maxTimestamp := max s.maxTimestamp p.timestamp }

/-- A run without any sender report: two packets, a report, a full-frame request,
a reinitialisation, a NACK callback, a full-frame callback and a third packet. -/
def noSenderReportOps : List Op :=
  [ Op.receivePacket { sequenceNumber := 10, timestamp := 90000, extensionMap := [] } 5000,
    Op.receivePacket { sequenceNumber := 11, timestamp := 93000, extensionMap := [] } 5040,
    Op.getRtcpReceiverReport 6000,
    Op.requestFullFrame,
    Op.onInitSeq,
    Op.onNackRequired [12, 13],
    Op.onFullFrameRequired,
    Op.receivePacket { sequenceNumber := 14, timestamp := 99000, extensionMap := [] } 5100 ]

/-- The stream at the end of the run `noSenderReportOps` on a new video stream. -/
def noSenderReportFinal : RtpStreamRecv :=
  match runOps exampleTracker (RtpStreamRecv.new videoParams) noSenderReportOps with
  | Except.ok s => s
  | Except.error _ => RtpStreamRecv.new videoParams

/-- A stream after 32768 sequence wraps on which a single packet was counted. -/
def wrapExample : RtpStreamRecv :=
  { RtpStreamRecv.new audioParams with cycles := 32768 * 65536, received := 1 }

/-- A stream after 3 sequence wraps with more packets counted than expected. -/
def duplicatesExample : RtpStreamRecv :=
  { RtpStreamRecv.new audioParams with
    cycles := 3 * 65536, maxSeq := 20, baseSeq := 65000, received := 131700 }

/-- The first packet of a video stream: RTP timestamp 450000 at 90 kHz. -/
def firstPacket : RtpPacket :=
  { sequenceNumber := 7, timestamp := 450000, extensionMap := [] }

/-! ## Reading the list of calls -/

/-- Whether the call goes to the listener. -/
def Effect.isListenerCall : Effect → Bool
  | Effect.listenerOnPliRequired => true
  | Effect.listenerOnNackRequired _ => true
  | _ => false

/-- The calls made to the listener, in order. -/
def listenerCalls (es : List Effect) : List Effect := es.filter Effect.isListenerCall

/-- How often the listener was asked for a key frame (`OnPliRequired`). -/
def pliCalls (es : List Effect) : Nat := es.count Effect.listenerOnPliRequired

/-- How often a new NackGenerator was constructed. -/
def estimatorRecreations (es : List Effect) : Nat := es.count Effect.nackGeneratorNew

/-- A run in which the first transit difference is the minimum int value: the
first packet of the stream arrives at clock reading 2^31 + 5000, a second one
follows, and a report is built. -/
def minDeltaOps : List Op :=
  [ Op.receivePacket firstPacket (2 ^ 31 + 5000),
    Op.receivePacket { sequenceNumber := 8, timestamp := 453000, extensionMap := [] }
      (2 ^ 31 + 5040),
    Op.getRtcpReceiverReport (2 ^ 31 + 6000) ]

/-- The stream at the end of the run `minDeltaOps` on a new video stream. -/
def minDeltaFinal : RtpStreamRecv :=
  match runOps exampleTracker (RtpStreamRecv.new videoParams) minDeltaOps with
  | Except.ok s => s
  | Except.error _ => RtpStreamRecv.new videoParams

/-- A video stream with PLI but without NACK. -/
def pliOnlyExample : RtpStreamRecv :=
  RtpStreamRecv.new
    { ssrc := 3, mime := MimeType.VIDEO, clockRate := 90000, useNack := false,
      usePli := true, ssrcAudioLevelId := 0, absSendTimeId := 0 }

/-- A video stream with NACK and PLI whose estimator already holds a packet. -/
def nackExample : RtpStreamRecv :=
  { RtpStreamRecv.new videoParams with
    maxSeq := 7, baseSeq := 7, received := 1,
    nackGenerator := some { packets := [firstPacket] } }

/-! ## The division of the jitter computation, checked -/

/-- Unsigned division as the machine evaluates it: undefined, here `none`, when
the divisor is zero. -/
def checkedDiv (a b : Nat) : Option Nat := if b = 0 then none else some (a / b)

/-- The method `CalculateJitter` with the division of line 161 checked: the
result is `none` if a division by zero is evaluated. -/
def CalculateJitterChecked (s : RtpStreamRecv) (now rtpTimestamp : Nat) : Option RtpStreamRecv :=
  if s.params.clockRate = 0 then some s
  else
    match checkedDiv (mul32 rtpTimestamp 1000) (u32 s.params.clockRate) with
    | none => none
    | some q =>
      let transit := toInt32 (sub64 now q)
      let d := absDelta transit s.transit
      some { s with transit := transit, jitter := jitterUpdate s.jitter d }

/-- A stream whose clock rate is not known. -/
def noClockExample : RtpStreamRecv :=
  { RtpStreamRecv.new
      { ssrc := 4, mime := MimeType.AUDIO, clockRate := 0, useNack := false,
        usePli := false, ssrcAudioLevelId := 1, absSendTimeId := 0 } with
    transit := 1234, jitter := 5 }

/-- A stream with 40 packets expected and none received since the last report. -/
def totalLossExample : RtpStreamRecv :=
  { RtpStreamRecv.new audioParams with
    maxSeq := 139, expectedPrior := 100, received := 90, receivedPrior := 90 }

/-! ## Facts about the machine arithmetic -/

theorem ofInt32_wrapInt32 (i : Int) : ofInt32 (wrapInt32 i) = ofInt32 i := by
  unfold wrapInt32 toInt32 ofInt32
  split <;> omega

theorem toInt32_range (n : Nat) : -(2 ^ 31) ≤ toInt32 n ∧ toInt32 n < 2 ^ 31 := by
  unfold toInt32
  split <;> omega

theorem toInt32_emod (n : Nat) : toInt32 n % 2 ^ 32 = (n : Int) % 2 ^ 32 := by
  unfold toInt32
  split <;> omega

theorem wrapInt32_emod (i : Int) : wrapInt32 i % 2 ^ 32 = i % 2 ^ 32 := by
  unfold wrapInt32 toInt32 ofInt32
  split <;> omega

theorem wrapInt32_of_range (i : Int) (h1 : -(2 ^ 31) ≤ i) (h2 : i < 2 ^ 31) :
    wrapInt32 i = i := by
  unfold wrapInt32 toInt32 ofInt32
  split <;> omega

theorem sub32_cast (a b : Nat) : ((sub32 a b : Nat) : Int) = ((a : Int) - b) % 2 ^ 32 := by
  unfold sub32 u32
  omega

theorem add32_cast (a b : Nat) : ((add32 a b : Nat) : Int) = ((a : Int) + b) % 2 ^ 32 := by
  unfold add32 u32
  omega

theorem sub32_self (a : Nat) : sub32 a a = 0 := by
  unfold sub32 u32
  omega

theorem expected_cast (s : RtpStreamRecv) :
    ((expected s : Nat) : Int) =
      ((s.cycles : Int) + s.maxSeq - s.baseSeq + 1) % 2 ^ 32 := by
  unfold expected add32 sub32 u32
  omega

/-! ## The receiver report: loss fields -/

/-- C1: the report's fraction lost is 0 when the expected interval is 0 or the
lost interval is not positive, and otherwise the low 8 bits of
`(lostInterval << 8) / expectedInterval`, where the intervals are the 32-bit
differences of the counters and their snapshots; on the worked example
(100, 80, 90, 75) the intervals are 20, 15, 5 and the fraction is 64. -/
theorem GetRtcpReceiverReport_fractionLost (s : RtpStreamRecv) (now : Nat) :
    ((expectedInterval s : Nat) : Int) = ((expected s : Int) - s.expectedPrior) % 2 ^ 32
    ∧ ((receivedInterval s : Nat) : Int) = ((s.received : Int) - s.receivedPrior) % 2 ^ 32
    ∧ lostInterval s % 2 ^ 32 = ((expectedInterval s : Int) - receivedInterval s) % 2 ^ 32
    ∧ -(2 ^ 31) ≤ lostInterval s ∧ lostInterval s < 2 ^ 31
    ∧ (GetRtcpReceiverReport s now).1.fractionLost =
        (if expectedInterval s = 0 ∨ lostInterval s ≤ 0 then 0
         else (((lostInterval s).toNat <<< 8) % 2 ^ 32 / expectedInterval s) % 2 ^ 8)
    ∧ (0 < lostInterval s → lostInterval s < 2 ^ 23 → expectedInterval s ≠ 0 →
        (GetRtcpReceiverReport s now).1.fractionLost =
          ((lostInterval s).toNat * 256 / expectedInterval s) % 256)
    ∧ (expected reportExample = 100 ∧ expectedInterval reportExample = 20
        ∧ receivedInterval reportExample = 15 ∧ lostInterval reportExample = 5
        ∧ (GetRtcpReceiverReport reportExample now).1.fractionLost = 64) := by
  have hfl : fractionLost s =
      (if expectedInterval s = 0 ∨ lostInterval s ≤ 0 then 0
       else (((lostInterval s).toNat <<< 8) % 2 ^ 32 / expectedInterval s) % 2 ^ 8) := by
    unfold fractionLost
    split
    · rfl
    · rename_i h
      have hpos : 0 < lostInterval s := by
        by_contra hc
        exact h (Or.inr (not_lt.mp hc))
      rw [ofInt32_wrapInt32]
      unfold u8 ofInt32
      congr 2
      rw [Nat.shiftLeft_eq]
      omega
  refine ⟨sub32_cast _ _, sub32_cast _ _, ?_, (toInt32_range _).1, (toInt32_range _).2,
    hfl, ?_, ?_⟩
  · unfold lostInterval
    rw [toInt32_emod, sub32_cast]
    omega
  · intro hpos hlt hne
    show fractionLost s = _
    rw [hfl, if_neg (by
      intro h
      rcases h with h | h
      · exact hne h
      · omega)]
    have h1 : ((lostInterval s).toNat <<< 8) % 2 ^ 32 = (lostInterval s).toNat * 256 := by
      rw [Nat.shiftLeft_eq]
      omega
    rw [h1]
    rfl
  · refine ⟨by decide, by decide, by decide, by decide, ?_⟩
    show fractionLost reportExample = 64
    decide

/-- C2, as stated, fails: with 5 packets expected and 2^31 + 100 received in the
interval the received interval exceeds the expected one, yet the 32-bit signed
lost interval is positive and the report carries fraction lost 51. -/
theorem fractionLost_excess_counterexample :
    expectedInterval excessExample = 5
    ∧ receivedInterval excessExample = 2 ^ 31 + 100
    ∧ ((excessExample.received : Int) - excessExample.receivedPrior
        ≥ (expected excessExample : Int) - excessExample.expectedPrior)
    ∧ lostInterval excessExample = 2147483553
    ∧ (GetRtcpReceiverReport excessExample 0).1.fractionLost = 51 := by
  refine ⟨by decide, by decide, by decide, by decide, ?_⟩
  show fractionLost excessExample = 51
  decide

/-- C2, amended: when the received interval is at least the expected interval and
exceeds it by at most 2^31, the 32-bit signed lost interval is not positive and
the report's fraction lost is 0. -/
theorem GetRtcpReceiverReport_fractionLost_zero_of_excess (s : RtpStreamRecv) (now : Nat)
    (hge : expectedInterval s ≤ receivedInterval s)
    (hle : receivedInterval s - expectedInterval s ≤ 2 ^ 31) :
    lostInterval s ≤ 0 ∧ (GetRtcpReceiverReport s now).1.fractionLost = 0 := by
  have hl : lostInterval s ≤ 0 := by
    have he : expectedInterval s < 2 ^ 32 := by
      unfold expectedInterval sub32; omega
    have hr : receivedInterval s < 2 ^ 32 := by
      unfold receivedInterval sub32; omega
    unfold lostInterval toInt32 sub32 u32
    split <;> omega
  refine ⟨hl, ?_⟩
  show fractionLost s = 0
  unfold fractionLost
  rw [if_pos (Or.inr hl)]

/-- Instance of the amended C2: 125 packets received against 20 expected. -/
theorem GetRtcpReceiverReport_fractionLost_zero_of_excess_witness :
    lostInterval { reportExample with received := 200 } ≤ 0
    ∧ (GetRtcpReceiverReport { reportExample with received := 200 } 7).1.fractionLost = 0 :=
  GetRtcpReceiverReport_fractionLost_zero_of_excess { reportExample with received := 200 } 7
    (by decide) (by decide)

/-- C3: a report built right after another one, with the counters untouched in
between, carries fraction lost 0: the first call leaves expectedPrior equal to
expected and receivedPrior equal to received, so the expected interval of the
second call is 0. -/
theorem GetRtcpReceiverReport_twice (s : RtpStreamRecv) (now1 now2 : Nat) :
    (GetRtcpReceiverReport s now1).2.expectedPrior = expected (GetRtcpReceiverReport s now1).2
    ∧ (GetRtcpReceiverReport s now1).2.receivedPrior = (GetRtcpReceiverReport s now1).2.received
    ∧ expectedInterval (GetRtcpReceiverReport s now1).2 = 0
    ∧ (GetRtcpReceiverReport (GetRtcpReceiverReport s now1).2 now2).1.fractionLost = 0 := by
  have h3 : expectedInterval (GetRtcpReceiverReport s now1).2 = 0 := by
    show sub32 (expected s) (expected s) = 0
    exact sub32_self _
  refine ⟨rfl, rfl, h3, ?_⟩
  show fractionLost (GetRtcpReceiverReport s now1).2 = 0
  unfold fractionLost
  rw [if_pos (Or.inl h3)]

/-! ## The receiver report: sender-report fields -/

theorem dlsr_fraction (d : Nat) :
    u32 (mul32 (d % 1000) 65536 / 1000) = d % 1000 * 65536 / 1000 := by
  have hx : d % 1000 < 1000 := Nat.mod_lt _ (by norm_num)
  have h0 : d % 1000 * 65536 < 2 ^ 32 := by omega
  have h1 : mul32 (d % 1000) 65536 = d % 1000 * 65536 := by
    unfold mul32 u32
    rw [Nat.mod_eq_of_lt (show d % 1000 < 2 ^ 32 by omega),
      Nat.mod_eq_of_lt (show 65536 < 2 ^ 32 by norm_num), Nat.mod_eq_of_lt h0]
  rw [h1]
  unfold u32
  exact Nat.mod_eq_of_lt (lt_of_le_of_lt (Nat.div_le_self _ _) h0)

theorem dlsr_eq (d : Nat) (h : d < 2 ^ 32) :
    dlsr d = ((d / 1000) <<< 16) % 2 ^ 32 ||| (d % 1000 * 65536 / 1000) := by
  unfold dlsr shl32
  rw [dlsr_fraction]
  have h1 : u32 (d / 1000) = d / 1000 := by
    unfold u32
    omega
  rw [h1]

theorem dlsr_of_lt (d : Nat) (h : d < 65536000) :
    dlsr d = (d / 1000) * 65536 + d % 1000 * 65536 / 1000 := by
  rw [dlsr_eq d (by omega)]
  have h1 : ((d / 1000) <<< 16) % 2 ^ 32 = 2 ^ 16 * (d / 1000) := by
    rw [Nat.shiftLeft_eq]
    omega
  have h3 : d % 1000 * 65536 / 1000 < 2 ^ 16 := by omega
  rw [h1, ← Nat.mul_add_lt_is_or h3]
  omega

theorem delayMs_of_le (s : RtpStreamRecv) (now : Nat) (hle : s.lastSrReceived ≤ now)
    (hnow : now < 2 ^ 64) : delayMs s now = (now - s.lastSrReceived) % 2 ^ 32 := by
  unfold delayMs sub64 u32 u64
  omega

/-- C4, as stated, fails: one millisecond after a sender report the delay field
is 65 (the fractional part 65.536 truncated), while the formula with the
fractional part rounded gives 66. -/
theorem dlsr_rounding_counterexample :
    srExample.lastSrReceived ≠ 0 ∧ srExample.lastSrReceived ≤ 1001
    ∧ delayMs srExample 1001 = 1
    ∧ (GetRtcpReceiverReport srExample 1001).1.delaySinceLastSenderReport = 65
    ∧ dlsrRounded 1 = 66
    ∧ (GetRtcpReceiverReport srExample 1001).1.delaySinceLastSenderReport
        ≠ dlsrRounded (delayMs srExample 1001) := by
  have hr : dlsrRounded 1 = 66 := by
    unfold dlsrRounded
    norm_num [round_eq]
    rfl
  have hd : delayMs srExample 1001 = 1 := by decide
  have hv : (GetRtcpReceiverReport srExample 1001).1.delaySinceLastSenderReport = 65 := by
    decide
  refine ⟨by decide, by decide, hd, hv, hr, ?_⟩
  rw [hd, hr, hv]
  decide

/-- C4, amended: with a sender report received and delayMs the clock reading minus
lastSrReceived, reduced to 32 bits, the delay field is
`((delayMs / 1000) << 16) | ((delayMs % 1000) * 65536 / 1000)` in unsigned
32-bit arithmetic with the fractional part truncated; when the exact delay is
below 65,536,000 ms this is `(delay / 1000) * 65536 + (delay % 1000) * 65536 / 1000`.
The last-sender-report field is lastSrTimestamp. -/
theorem GetRtcpReceiverReport_dlsr (s : RtpStreamRecv) (now : Nat)
    (hsr : s.lastSrReceived ≠ 0) (hle : s.lastSrReceived ≤ now) (hnow : now < 2 ^ 64) :
    (GetRtcpReceiverReport s now).1.delaySinceLastSenderReport =
        ((((now - s.lastSrReceived) % 2 ^ 32) / 1000) <<< 16) % 2 ^ 32
          ||| (((now - s.lastSrReceived) % 2 ^ 32) % 1000 * 65536 / 1000)
    ∧ (now - s.lastSrReceived < 65536000 →
        (GetRtcpReceiverReport s now).1.delaySinceLastSenderReport =
          ((now - s.lastSrReceived) / 1000) * 65536
            + (now - s.lastSrReceived) % 1000 * 65536 / 1000)
    ∧ (GetRtcpReceiverReport s now).1.lastSenderReport = s.lastSrTimestamp := by
  have hd : (GetRtcpReceiverReport s now).1.delaySinceLastSenderReport
      = dlsr ((now - s.lastSrReceived) % 2 ^ 32) := by
    show (if s.lastSrReceived ≠ 0 then dlsr (delayMs s now) else 0) = _
    rw [if_pos hsr, delayMs_of_le s now hle hnow]
  have hl : (GetRtcpReceiverReport s now).1.lastSenderReport = s.lastSrTimestamp := by
    show (if s.lastSrReceived ≠ 0 then s.lastSrTimestamp else 0) = _
    rw [if_pos hsr]
  refine ⟨?_, ?_, hl⟩
  · rw [hd, dlsr_eq _ (Nat.mod_lt _ (by norm_num))]
  · intro hlt
    rw [hd, Nat.mod_eq_of_lt (by omega)]
    exact dlsr_of_lt _ hlt

/-- Instance of the amended C4: a report 1500 ms after the sender report. -/
theorem GetRtcpReceiverReport_dlsr_witness :
    (GetRtcpReceiverReport srExample 2500).1.delaySinceLastSenderReport = 98304
    ∧ (GetRtcpReceiverReport srExample 2500).1.lastSenderReport = 305419896 :=
  have h := GetRtcpReceiverReport_dlsr srExample 2500 (by decide) (by decide) (by decide)
  ⟨(h.2.1 (by decide)).trans (by decide), h.2.2.trans (by decide)⟩

/-! ## Streams that never received a sender report -/

theorem OnInitSeq_lastSrReceived (s : RtpStreamRecv) :
    (OnInitSeq s).stream.lastSrReceived = s.lastSrReceived := by
  unfold OnInitSeq
  split <;> split <;> rfl

theorem CalculateJitter_lastSrReceived (s : RtpStreamRecv) (now ts : Nat) :
    (CalculateJitter s now ts).lastSrReceived = s.lastSrReceived := by
  unfold CalculateJitter
  split <;> rfl

theorem parentReceivePacket_lastSrReceived (base : BaseReceivePacket) (s : RtpStreamRecv)
    (p : RtpPacket) :
    (parentReceivePacket base s p).2.stream.lastSrReceived = s.lastSrReceived := by
  unfold parentReceivePacket
  simp only
  split
  · rw [OnInitSeq_lastSrReceived]; rfl
  · rfl

theorem passToNackGenerator_lastSrReceived (s : RtpStreamRecv) (p : RtpPacket) (r : Step)
    (h : passToNackGenerator s p = Except.ok r) :
    r.stream.lastSrReceived = s.lastSrReceived := by
  unfold passToNackGenerator at h
  split at h
  · split at h
    · cases h
    · cases h; rfl
  · cases h; rfl

theorem ReceivePacket_lastSrReceived (base : BaseReceivePacket) (s : RtpStreamRecv)
    (p : RtpPacket) (now : Nat) (r : ReceiveResult)
    (h : ReceivePacket base s p now = Except.ok r) :
    r.stream.lastSrReceived = s.lastSrReceived := by
  have h0 := parentReceivePacket_lastSrReceived base s p
  unfold ReceivePacket at h
  simp only at h
  generalize parentReceivePacket base s p = r0 at h h0
  split at h
  · cases h
    exact h0
  · split at h
    · cases h
    · rename_i r2 h2
      cases h
      show r2.stream.lastSrReceived = _
      rw [passToNackGenerator_lastSrReceived _ _ r2 h2]
      show (CalculateJitter _ _ _).lastSrReceived = _
      rw [CalculateJitter_lastSrReceived]
      exact h0

theorem applyOp_lastSrReceived (base : BaseReceivePacket) (s s1 : RtpStreamRecv) (op : Op)
    (hop : op.isSenderReport = false) (h : applyOp base s op = Except.ok s1) :
    s1.lastSrReceived = s.lastSrReceived := by
  cases op with
  | receivePacket p now =>
    simp only [applyOp] at h
    cases hr : ReceivePacket base s p now with
    | error f => rw [hr] at h; cases h
    | ok r =>
      rw [hr] at h
      cases h
      exact ReceivePacket_lastSrReceived base s p now r hr
  | getRtcpReceiverReport now => cases h; rfl
  | receiveRtcpSenderReport a b c => cases hop
  | requestFullFrame =>
    cases h
    show (RequestFullFrame s).stream.lastSrReceived = _
    unfold RequestFullFrame
    split
    · split <;> rfl
    · rfl
  | onInitSeq => cases h; exact OnInitSeq_lastSrReceived s
  | onNackRequired seqs =>
    simp only [applyOp] at h
    cases hr : OnNackRequired s seqs with
    | error f => rw [hr] at h; cases h
    | ok r =>
      rw [hr] at h
      cases h
      unfold OnNackRequired at hr
      split at hr
      · split at hr
        · cases hr
        · cases hr; rfl
      · cases hr
  | onFullFrameRequired =>
    cases h
    show (OnFullFrameRequired s).stream.lastSrReceived = _
    unfold OnFullFrameRequired
    split <;> rfl

theorem runOps_lastSrReceived (base : BaseReceivePacket) (ops : List Op) :
    ∀ (s s1 : RtpStreamRecv), (∀ op ∈ ops, op.isSenderReport = false) →
      runOps base s ops = Except.ok s1 → s1.lastSrReceived = s.lastSrReceived := by
  induction ops with
  | nil =>
    intro s s1 _ h
    cases h
    rfl
  | cons op ops ih =>
    intro s s1 hall h
    unfold runOps at h
    cases hop : applyOp base s op with
    | error f => rw [hop] at h; cases h
    | ok s2 =>
      rw [hop] at h
      have h1 := applyOp_lastSrReceived base s s2 op (hall op (List.mem_cons_self _ _)) hop
      have h2 := ih s2 s1 (fun o ho => hall o (List.mem_cons_of_mem _ ho)) h
      rw [h2, h1]

/-- C5: on a stream that never received a sender report (lastSrReceived = 0), after
any sequence of operations other than ReceiveRtcpSenderReport, whatever the
base sequence tracker does and whatever the clock reads, the report carries 0
in both the delay-since-last-sender-report and the last-sender-report field. -/
theorem GetRtcpReceiverReport_without_sender_report (base : BaseReceivePacket)
    (s s1 : RtpStreamRecv) (ops : List Op) (now : Nat)
    (h0 : s.lastSrReceived = 0)
    (hops : ∀ op ∈ ops, op.isSenderReport = false)
    (hrun : runOps base s ops = Except.ok s1) :
    (GetRtcpReceiverReport s1 now).1.delaySinceLastSenderReport = 0
    ∧ (GetRtcpReceiverReport s1 now).1.lastSenderReport = 0 := by
  have h1 : s1.lastSrReceived = 0 := by
    rw [runOps_lastSrReceived base ops s s1 hops hrun, h0]
  constructor
  · show (if s1.lastSrReceived ≠ 0 then dlsr (delayMs s1 now) else 0) = 0
    rw [if_neg (by simp [h1])]
  · show (if s1.lastSrReceived ≠ 0 then s1.lastSrTimestamp else 0) = 0
    rw [if_neg (by simp [h1])]

/-- Instance of C5: the run `noSenderReportOps` on a new video stream. -/
theorem GetRtcpReceiverReport_without_sender_report_witness :
    (GetRtcpReceiverReport noSenderReportFinal 123456).1.delaySinceLastSenderReport = 0
    ∧ (GetRtcpReceiverReport noSenderReportFinal 123456).1.lastSenderReport = 0 :=
  GetRtcpReceiverReport_without_sender_report exampleTracker (RtpStreamRecv.new videoParams)
    noSenderReportFinal noSenderReportOps 123456 rfl (by decide) rfl

/-! ## The sender report -/

/-- C6: ReceiveRtcpSenderReport stores the clock reading in lastSrReceived and the
middle 32 bits of the 64-bit NTP time in lastSrTimestamp, which is the 32-bit
result of `(ntpSec << 16) + (ntpFrac >> 16)`; it is a total function. -/
theorem ReceiveRtcpSenderReport_middle_bits (s : RtpStreamRecv) (ntpSec ntpFrac now : Nat) :
    (ReceiveRtcpSenderReport s ntpSec ntpFrac now).lastSrReceived = now
    ∧ (ReceiveRtcpSenderReport s ntpSec ntpFrac now).lastSrTimestamp
        = ((ntpSec * 2 ^ 32 + ntpFrac) >>> 16) % 2 ^ 32
    ∧ (ReceiveRtcpSenderReport s ntpSec ntpFrac now).lastSrTimestamp
        = ((ntpSec <<< 16) + (ntpFrac >>> 16)) % 2 ^ 32 := by
  have h : (ReceiveRtcpSenderReport s ntpSec ntpFrac now).lastSrTimestamp
      = add32 (shl32 ntpSec 16) (ntpFrac >>> 16) := rfl
  refine ⟨rfl, ?_, ?_⟩
  · rw [h]
    unfold add32 shl32 u32
    rw [Nat.shiftLeft_eq, Nat.shiftRight_eq_div_pow, Nat.shiftRight_eq_div_pow]
    omega
  · rw [h]
    unfold add32 shl32 u32
    rw [Nat.shiftLeft_eq, Nat.shiftLeft_eq, Nat.shiftRight_eq_div_pow]
    omega

/-! ## The receiver report: cumulative loss and highest sequence number -/

/-- C7, as stated, fails: after 32768 wraps with one packet counted, expected is
2^31 + 1 and the exact difference expected - received is 2^31, but the signed
32-bit total-lost value is -2^31: it is not the exact difference, and it is
negative although received does not exceed expected. -/
theorem totalLost_counterexample :
    wrapExample.cycles = 32768 * 65536
    ∧ ((32768 * 65536 + wrapExample.maxSeq - wrapExample.baseSeq + 1 : Int)
        - wrapExample.received = 2147483648)
    ∧ (GetRtcpReceiverReport wrapExample 0).1.totalLost = -2147483648
    ∧ ¬ ((32768 * 65536 + wrapExample.maxSeq - wrapExample.baseSeq + 1 : Int)
          < wrapExample.received) := by
  decide

/-- C7, amended: with the cycles field holding the number of wraps shifted left by
16 bits, total lost is expected - received reduced to a signed 32-bit value,
where expected = wraps * 65536 + maxSeq - baseSeq + 1; whenever that difference
lies in [-2^31, 2^31) total lost equals it, unclamped, and is negative exactly
when received exceeds expected. -/
theorem GetRtcpReceiverReport_totalLost (s : RtpStreamRecv) (wraps now : Nat)
    (hc : s.cycles = wraps * 65536) :
    (GetRtcpReceiverReport s now).1.totalLost
        = wrapInt32 ((wraps * 65536 + s.maxSeq - s.baseSeq + 1 : Int) - s.received)
    ∧ (-(2 ^ 31) ≤ (wraps * 65536 + s.maxSeq - s.baseSeq + 1 : Int) - s.received →
        (wraps * 65536 + s.maxSeq - s.baseSeq + 1 : Int) - s.received < 2 ^ 31 →
        (GetRtcpReceiverReport s now).1.totalLost
            = (wraps * 65536 + s.maxSeq - s.baseSeq + 1 : Int) - s.received
          ∧ ((GetRtcpReceiverReport s now).1.totalLost < 0
              ↔ (wraps * 65536 + s.maxSeq - s.baseSeq + 1 : Int) < s.received)) := by
  have h : (GetRtcpReceiverReport s now).1.totalLost
      = wrapInt32 ((wraps * 65536 + s.maxSeq - s.baseSeq + 1 : Int) - s.received) := by
    show toInt32 (sub32 (expected s) s.received) = _
    have he := expected_cast s
    have hs := sub32_cast (expected s) s.received
    unfold wrapInt32 toInt32 ofInt32
    split <;> split <;> omega
  refine ⟨h, ?_⟩
  intro h1 h2
  rw [h, wrapInt32_of_range _ h1 h2]
  exact ⟨rfl, by omega⟩

/-- Instance of the amended C7: 131629 packets expected, 131700 counted. -/
theorem GetRtcpReceiverReport_totalLost_witness :
    (GetRtcpReceiverReport duplicatesExample 0).1.totalLost = -71 :=
  have h := GetRtcpReceiverReport_totalLost duplicatesExample 3 0 (by decide)
  (h.2 (by decide) (by decide)).1.trans (by decide)

/-- C8: with the cycles field holding the number of wraps shifted left by 16 bits
(it fits in 32 bits) and maxSeq a 16-bit value, the extended highest sequence
number of the report is wraps * 65536 + maxSeq. -/
theorem GetRtcpReceiverReport_lastSeq (s : RtpStreamRecv) (wraps now : Nat)
    (hc : s.cycles = wraps * 65536) (hc32 : s.cycles < 2 ^ 32) (hm : s.maxSeq < 2 ^ 16) :
    (GetRtcpReceiverReport s now).1.lastSeq = wraps * 65536 + s.maxSeq := by
  show add32 (u32 s.maxSeq) s.cycles = _
  unfold add32 u32
  omega

/-- Instance of C8: 3 wraps and highest sequence number 20. -/
theorem GetRtcpReceiverReport_lastSeq_witness :
    (GetRtcpReceiverReport duplicatesExample 0).1.lastSeq = 3 * 65536 + 20 :=
  GetRtcpReceiverReport_lastSeq duplicatesExample 3 0 (by decide) (by decide) (by decide)

/-! ## Jitter -/

theorem absDelta_min (t p : Int) (h : wrapInt32 (t - p) = INT32_MIN) :
    absDelta t p = INT32_MIN := by
  unfold absDelta
  simp only
  rw [h]
  decide

/-- The stored jitter in integer arithmetic: the sum of line 167 is
`(15 * jitter + d) / 16`, truncated toward zero and reduced to 32 bits. -/
theorem jitterUpdate_eq (J : Nat) (d : Int) :
    jitterUpdate J d
      = ofInt32 (if 0 ≤ 15 * (J : Int) + d then (15 * (J : Int) + d) / 16
                 else -((-(15 * (J : Int) + d)) / 16)) := by
  unfold jitterUpdate doubleToU32
  have hx : (J : ℚ) + (1 / 16) * ((d : ℚ) - (J : ℚ))
      = ((15 * (J : Int) + d : Int) : ℚ) / ((16 : Nat) : ℚ) := by
    push_cast
    ring
  rw [hx]
  generalize 15 * (J : Int) + d = n
  by_cases hn : 0 ≤ n
  · have hq : (0 : ℚ) ≤ (n : ℚ) / ((16 : Nat) : ℚ) :=
      div_nonneg (by exact_mod_cast hn) (by norm_num)
    rw [if_pos hq, if_pos hn, Rat.floor_intCast_div_natCast]
    rfl
  · have hq : ¬ (0 : ℚ) ≤ (n : ℚ) / ((16 : Nat) : ℚ) := by
      have hneg : (n : ℚ) < 0 := by exact_mod_cast not_le.mp hn
      have : (n : ℚ) / ((16 : Nat) : ℚ) < 0 := div_neg_of_neg_of_pos hneg (by norm_num)
      exact not_le.mpr this
    have hc : ⌈(n : ℚ) / ((16 : Nat) : ℚ)⌉ = -⌊((-n : Int) : ℚ) / ((16 : Nat) : ℚ)⌋ := by
      have h1 : ((-n : Int) : ℚ) / ((16 : Nat) : ℚ) = -((n : ℚ) / ((16 : Nat) : ℚ)) := by
        push_cast
        ring
      rw [h1, Int.floor_neg, neg_neg]
    rw [if_neg hq, if_neg hn, hc, Rat.floor_intCast_div_natCast]
    rfl

theorem jitterUpdate_lt (J : Nat) (d : Int) : jitterUpdate J d < 2 ^ 32 := by
  rw [jitterUpdate_eq]
  unfold ofInt32
  omega

theorem CalculateJitter_jitter_lt (s : RtpStreamRecv) (now ts : Nat) (h : s.jitter < 2 ^ 32) :
    (CalculateJitter s now ts).jitter < 2 ^ 32 := by
  unfold CalculateJitter
  split
  · exact h
  · exact jitterUpdate_lt _ _

/-- C11: OnInitSeq asks the listener for a key frame exactly once on a video stream
and never on an audio stream, whatever usePli and useNack are. -/
theorem OnInitSeq_pliCalls (s : RtpStreamRecv) :
    pliCalls (OnInitSeq s).effects = (if s.params.mime = MimeType.VIDEO then 1 else 0)
    ∧ listenerCalls (OnInitSeq s).effects
        = (if s.params.mime = MimeType.VIDEO then [Effect.listenerOnPliRequired] else []) := by
  unfold OnInitSeq
  cases hn : s.params.useNack <;> cases hm : s.params.mime <;> simp <;> decide

/-- C12, as stated, fails: on a stream with usePli = true and useNack = false,
RequestFullFrame calls the listener once but constructs no estimator, and the
stream still has none. -/
theorem RequestFullFrame_no_estimator_counterexample :
    pliOnlyExample.params.usePli = true
    ∧ pliOnlyExample.params.useNack = false
    ∧ pliCalls (RequestFullFrame pliOnlyExample).effects = 1
    ∧ estimatorRecreations (RequestFullFrame pliOnlyExample).effects = 0
    ∧ (RequestFullFrame pliOnlyExample).stream.nackGenerator = none := by
  refine ⟨rfl, rfl, by decide, by decide, rfl⟩

/-- C12, amended: with usePli = false RequestFullFrame makes no listener call, does
not recreate the estimator and leaves the stream as it is; with usePli = true
it calls the listener's key-frame notification exactly once for every value of
useNack, and it recreates the estimator exactly when useNack is true. -/
theorem RequestFullFrame_effects (s : RtpStreamRecv) :
    listenerCalls (RequestFullFrame s).effects
        = (if s.params.usePli then [Effect.listenerOnPliRequired] else [])
    ∧ pliCalls (RequestFullFrame s).effects = (if s.params.usePli then 1 else 0)
    ∧ estimatorRecreations (RequestFullFrame s).effects
        = (if s.params.usePli = true ∧ s.params.useNack = true then 1 else 0)
    ∧ (RequestFullFrame s).stream
        = (if s.params.usePli = true ∧ s.params.useNack = true
            then { s with nackGenerator := some NackGenerator.fresh } else s) := by
  unfold RequestFullFrame
  cases hp : s.params.usePli <;> cases hn : s.params.useNack <;> simp <;> decide

/-- C13: for a non-empty list, OnNackRequired aborts on the failed assertion,
before any call, exactly when useNack is false; with useNack true it returns,
leaves the stream as it is and calls the listener exactly once, with the list
as it was given; reading the first element never fails. -/
theorem OnNackRequired_nonempty (s : RtpStreamRecv) (seqNumbers : List Nat)
    (hne : seqNumbers ≠ []) :
    (OnNackRequired s seqNumbers = Except.error Fault.assertFailed ↔ s.params.useNack = false)
    ∧ (s.params.useNack = true →
        ∃ r, OnNackRequired s seqNumbers = Except.ok r
          ∧ r.stream = s
          ∧ listenerCalls r.effects = [Effect.listenerOnNackRequired seqNumbers])
    ∧ OnNackRequired s seqNumbers ≠ Except.error Fault.emptySeqNumbers := by
  obtain ⟨x, xs, rfl⟩ := List.exists_cons_of_ne_nil hne
  unfold OnNackRequired
  cases hn : s.params.useNack
  · simp
  · simp
    rfl

/-- Instance of C13: the list [12, 13] on a stream with NACK. -/
theorem OnNackRequired_nonempty_witness :
    ∃ r, OnNackRequired nackExample [12, 13] = Except.ok r
      ∧ r.stream = nackExample
      ∧ listenerCalls r.effects = [Effect.listenerOnNackRequired [12, 13]] :=
  (OnNackRequired_nonempty nackExample [12, 13] (by decide)).2.1 rfl

/-- C14: OnFullFrameRequired never aborts and never changes the stream, so any
later run of operations is the same as without it, and it constructs no
estimator; with usePli = false it makes no listener call, with usePli = true
it calls the listener's key-frame notification exactly once. -/
theorem OnFullFrameRequired_effects (s : RtpStreamRecv) :
    (OnFullFrameRequired s).stream = s
    ∧ (∀ (base : BaseReceivePacket) (ops : List Op),
        runOps base (OnFullFrameRequired s).stream ops = runOps base s ops)
    ∧ listenerCalls (OnFullFrameRequired s).effects
        = (if s.params.usePli then [Effect.listenerOnPliRequired] else [])
    ∧ pliCalls (OnFullFrameRequired s).effects = (if s.params.usePli then 1 else 0)
    ∧ estimatorRecreations (OnFullFrameRequired s).effects = 0 := by
  have hs : (OnFullFrameRequired s).stream = s := by
    unfold OnFullFrameRequired
    split <;> rfl
  refine ⟨hs, ?_, ?_, ?_, ?_⟩
  · intro base ops
    rw [hs]
  · unfold OnFullFrameRequired
    cases hp : s.params.usePli <;> simp <;> decide
  · unfold OnFullFrameRequired
    cases hp : s.params.usePli <;> simp <;> decide
  · unfold OnFullFrameRequired
    cases hp : s.params.usePli <;> simp <;> decide

/-! ## The interval snapshots -/

/-- C15: GetRtcpReceiverReport changes the stream in two fields only, setting
expectedPrior to the expected count and receivedPrior to the received count;
CalculateJitter, ReceiveRtcpSenderReport, RequestFullFrame, OnFullFrameRequired
and OnNackRequired leave both snapshots as they are. -/
theorem GetRtcpReceiverReport_frame (s : RtpStreamRecv) (now : Nat) :
    (GetRtcpReceiverReport s now).2
        = { s with expectedPrior := expected s, receivedPrior := s.received }
    ∧ (∀ ts, (CalculateJitter s now ts).expectedPrior = s.expectedPrior
          ∧ (CalculateJitter s now ts).receivedPrior = s.receivedPrior)
    ∧ (∀ ntpSec ntpFrac,
          (ReceiveRtcpSenderReport s ntpSec ntpFrac now).expectedPrior = s.expectedPrior
          ∧ (ReceiveRtcpSenderReport s ntpSec ntpFrac now).receivedPrior = s.receivedPrior)
    ∧ ((RequestFullFrame s).stream.expectedPrior = s.expectedPrior
          ∧ (RequestFullFrame s).stream.receivedPrior = s.receivedPrior)
    ∧ ((OnFullFrameRequired s).stream.expectedPrior = s.expectedPrior
          ∧ (OnFullFrameRequired s).stream.receivedPrior = s.receivedPrior)
    ∧ (∀ seqNumbers r, OnNackRequired s seqNumbers = Except.ok r →
          r.stream.expectedPrior = s.expectedPrior
          ∧ r.stream.receivedPrior = s.receivedPrior) := by
  refine ⟨rfl, ?_, ?_, ?_, ?_, ?_⟩
  · intro ts
    unfold CalculateJitter
    split <;> exact ⟨rfl, rfl⟩
  · intro a b
    exact ⟨rfl, rfl⟩
  · unfold RequestFullFrame
    split
    · split <;> exact ⟨rfl, rfl⟩
    · exact ⟨rfl, rfl⟩
  · unfold OnFullFrameRequired
    split <;> exact ⟨rfl, rfl⟩
  · intro seqs r h
    unfold OnNackRequired at h
    split at h
    · split at h
      · cases h
      · cases h
        exact ⟨rfl, rfl⟩
    · cases h

/-! ## The transit time -/

/-- Without wrap-around of the product, the transit is the clock reading minus the
truncated quotient, reduced to a signed 32-bit value. -/
theorem transitOf_of_no_wrap (clockRate now ts : Nat) (hts : ts * 1000 < 2 ^ 32)
    (hc : clockRate < 2 ^ 32) (hnow : now < 2 ^ 64) :
    transitOf clockRate now ts = wrapInt32 ((now : Int) - ((ts * 1000 / clockRate : Nat) : Int)) := by
  have hq : ts * 1000 / clockRate < 2 ^ 32 := lt_of_le_of_lt (Nat.div_le_self _ _) hts
  have hm : mul32 ts 1000 = ts * 1000 := by
    unfold mul32 u32
    rw [Nat.mod_eq_of_lt (show ts < 2 ^ 32 by omega),
      Nat.mod_eq_of_lt (show 1000 < 2 ^ 32 by norm_num), Nat.mod_eq_of_lt hts]
  have hcu : u32 clockRate = clockRate := Nat.mod_eq_of_lt hc
  unfold transitOf
  rw [hm, hcu]
  generalize ts * 1000 / clockRate = q at hq
  unfold wrapInt32 toInt32 ofInt32 sub64 u64
  split <;> split <;> omega

/-- C16 fails on the code: at 90 kHz a packet with RTP timestamp 5400000 (one
minute of media) received at clock reading 100000 gets transit 87722, because
the 32-bit product 5400000 * 1000 wraps to 1105032704; with the product taken
exactly the transit is 100000 - 60000 = 40000. -/
theorem CalculateJitter_transit_product_wraps :
    (RtpStreamRecv.new videoParams).params.clockRate = 90000
    ∧ mul32 5400000 1000 = 1105032704
    ∧ (CalculateJitter (RtpStreamRecv.new videoParams) 100000 5400000).transit = 87722
    ∧ (100000 : Int) - ((5400000 * 1000 / 90000 : Nat) : Int) = 40000 := by
  refine ⟨rfl, by decide, ?_, by decide⟩
  show transitOf 90000 100000 5400000 = 87722
  decide

/-- Away from a clock rate that is a multiple of 2^32, the checked computation
never divides by zero and gives what `CalculateJitter` gives. -/
theorem CalculateJitterChecked_eq (s : RtpStreamRecv) (now ts : Nat)
    (hc : s.params.clockRate < 2 ^ 32) :
    CalculateJitterChecked s now ts = some (CalculateJitter s now ts) := by
  unfold CalculateJitterChecked CalculateJitter
  by_cases h0 : s.params.clockRate = 0
  · rw [if_pos h0, if_pos h0]
  · rw [if_neg h0, if_neg h0]
    have hu : u32 s.params.clockRate ≠ 0 := by
      unfold u32
      omega
    unfold checkedDiv
    rw [if_neg hu]
    rfl

/-- C17: with clockRate = 0, CalculateJitter returns at once: the stream, transit
and jitter included, is unchanged, and the checked computation ends without
evaluating a division by zero. -/
theorem CalculateJitter_zero_clockRate (s : RtpStreamRecv) (now ts : Nat)
    (h0 : s.params.clockRate = 0) :
    CalculateJitter s now ts = s
    ∧ (CalculateJitter s now ts).transit = s.transit
    ∧ (CalculateJitter s now ts).jitter = s.jitter
    ∧ CalculateJitterChecked s now ts = some s := by
  have h : CalculateJitter s now ts = s := by
    unfold CalculateJitter
    rw [if_pos h0]
  refine ⟨h, by rw [h], by rw [h], ?_⟩
  unfold CalculateJitterChecked
  rw [if_pos h0]

/-- Instance of C17: a packet on a stream without a clock rate. -/
theorem CalculateJitter_zero_clockRate_witness :
    CalculateJitter noClockExample 5000 90000 = noClockExample
    ∧ CalculateJitterChecked noClockExample 5000 90000 = some noClockExample :=
  have h := CalculateJitter_zero_clockRate noClockExample 5000 90000 rfl
  ⟨h.1, h.2.2.2⟩

/-! ## Receiving a packet -/

theorem OnInitSeq_transit_jitter (s : RtpStreamRecv) :
    (OnInitSeq s).stream.transit = s.transit ∧ (OnInitSeq s).stream.jitter = s.jitter
    ∧ (OnInitSeq s).stream.params = s.params := by
  unfold OnInitSeq
  cases hn : s.params.useNack <;> cases hm : s.params.mime <;> simp

theorem parentReceivePacket_transit_jitter (base : BaseReceivePacket) (s : RtpStreamRecv)
    (p : RtpPacket) :
    (parentReceivePacket base s p).2.stream.transit = s.transit
    ∧ (parentReceivePacket base s p).2.stream.jitter = s.jitter
    ∧ (parentReceivePacket base s p).2.stream.params = s.params := by
  unfold parentReceivePacket
  simp only
  split
  · exact OnInitSeq_transit_jitter _
  · exact ⟨rfl, rfl, rfl⟩

/-- C19: for a delay below 65,536,000 ms the split computation of the delay field
equals the single division `delayMs * 65536 / 1000`: the seconds shifted left
by 16 bits and the product of the fractional part fit in 32 bits, the
fractional term is below 65536, and the bitwise OR leaves the seconds in the
high 16 bits and the fractional term in the low 16 bits. -/
theorem dlsr_eq_single_division (d : Nat) (h : d < 65536000) :
    dlsr d = d * 65536 / 1000
    ∧ d % 1000 * 65536 / 1000 < 65536
    ∧ (d / 1000) <<< 16 < 2 ^ 32
    ∧ d % 1000 * 65536 < 2 ^ 32
    ∧ dlsr d / 65536 = d / 1000
    ∧ dlsr d % 65536 = d % 1000 * 65536 / 1000 := by
  have h0 := dlsr_of_lt d h
  have h1 : d % 1000 * 65536 / 1000 < 65536 := by omega
  have h2 : (d / 1000) <<< 16 < 2 ^ 32 := by
    rw [Nat.shiftLeft_eq]
    omega
  refine ⟨?_, h1, h2, by omega, ?_, ?_⟩
  · rw [h0]
    omega
  · rw [h0]
    omega
  · rw [h0]
    omega

/-- Instance of C19: a delay of 1500 ms. -/
theorem dlsr_eq_single_division_witness : dlsr 1500 = 1500 * 65536 / 1000 :=
  (dlsr_eq_single_division 1500 (by decide)).1

/-- C20: when the expected interval is positive and below 2^23 and nothing was
received in the interval, the lost interval equals the expected interval, the
quotient `(lostInterval << 8) / expectedInterval` is 256, and the 8-bit
fraction lost of the report is 0. -/
theorem GetRtcpReceiverReport_total_loss (s : RtpStreamRecv) (now : Nat)
    (hpos : 0 < expectedInterval s) (hlt : expectedInterval s < 2 ^ 23)
    (hrecv : s.received = s.receivedPrior) :
    receivedInterval s = 0
    ∧ lostInterval s = expectedInterval s
    ∧ ofInt32 (wrapInt32 (lostInterval s * 2 ^ 8)) / expectedInterval s = 256
    ∧ ((lostInterval s).toNat <<< 8) / expectedInterval s = 256
    ∧ (GetRtcpReceiverReport s now).1.fractionLost = 0 := by
  have hr : receivedInterval s = 0 := by
    unfold receivedInterval
    rw [hrecv]
    exact sub32_self _
  have hl : lostInterval s = expectedInterval s := by
    unfold lostInterval
    rw [hr]
    unfold toInt32 sub32 u32
    split <;> omega
  have hq : ofInt32 (wrapInt32 (lostInterval s * 2 ^ 8)) / expectedInterval s = 256 := by
    rw [ofInt32_wrapInt32, hl]
    have hm : ofInt32 ((expectedInterval s : Int) * 2 ^ 8) = 256 * expectedInterval s := by
      unfold ofInt32
      omega
    rw [hm]
    exact Nat.mul_div_cancel _ hpos
  refine ⟨hr, hl, hq, ?_, ?_⟩
  · rw [hl, Int.toNat_ofNat, Nat.shiftLeft_eq]
    show expectedInterval s * 256 / expectedInterval s = 256
    exact Nat.mul_div_cancel_left _ hpos
  · show fractionLost s = 0
    unfold fractionLost
    rw [if_neg (by
      intro hc
      rcases hc with hc | hc
      · omega
      · omega), hq]
    rfl

/-- Instance of C20: 40 packets expected and none received in the interval. -/
theorem GetRtcpReceiverReport_total_loss_witness :
    lostInterval totalLossExample = 40
    ∧ (GetRtcpReceiverReport totalLossExample 0).1.fractionLost = 0 :=
  have h := GetRtcpReceiverReport_total_loss totalLossExample 0 (by decide) (by decide) rfl
  ⟨h.2.1.trans (by decide), h.2.2.2.2⟩

/-! ## The jitter field over a run -/

theorem passToNackGenerator_jitter (s : RtpStreamRecv) (p : RtpPacket) (r : Step)
    (h : passToNackGenerator s p = Except.ok r) : r.stream.jitter = s.jitter := by
  unfold passToNackGenerator at h
  split at h
  · split at h
    · cases h
    · cases h; rfl
  · cases h; rfl

theorem ReceivePacket_jitter_lt (base : BaseReceivePacket) (s : RtpStreamRecv)
    (p : RtpPacket) (now : Nat) (r : ReceiveResult) (hwf : s.jitter < 2 ^ 32)
    (h : ReceivePacket base s p now = Except.ok r) : r.stream.jitter < 2 ^ 32 := by
  have h0 : (parentReceivePacket base s p).2.stream.jitter < 2 ^ 32 := by
    rw [(parentReceivePacket_transit_jitter base s p).2.1]
    exact hwf
  unfold ReceivePacket at h
  simp only at h
  generalize parentReceivePacket base s p = r0 at h h0
  split at h
  · cases h
    exact h0
  · split at h
    · cases h
    · rename_i r2 h2
      cases h
      show r2.stream.jitter < 2 ^ 32
      rw [passToNackGenerator_jitter _ _ r2 h2]
      exact CalculateJitter_jitter_lt _ _ _ h0

theorem applyOp_jitter_lt (base : BaseReceivePacket) (s s1 : RtpStreamRecv) (op : Op)
    (hwf : s.jitter < 2 ^ 32) (h : applyOp base s op = Except.ok s1) :
    s1.jitter < 2 ^ 32 := by
  cases op with
  | receivePacket p now =>
    simp only [applyOp] at h
    cases hr : ReceivePacket base s p now with
    | error f => rw [hr] at h; cases h
    | ok r =>
      rw [hr] at h
      cases h
      exact ReceivePacket_jitter_lt base s p now r hwf hr
  | getRtcpReceiverReport now => cases h; exact hwf
  | receiveRtcpSenderReport a b c => cases h; exact hwf
  | requestFullFrame =>
    cases h
    show (RequestFullFrame s).stream.jitter < 2 ^ 32
    unfold RequestFullFrame
    split
    · split <;> exact hwf
    · exact hwf
  | onInitSeq =>
    cases h
    show (OnInitSeq s).stream.jitter < 2 ^ 32
    rw [(OnInitSeq_transit_jitter s).2.1]
    exact hwf
  | onNackRequired seqs =>
    simp only [applyOp] at h
    cases hr : OnNackRequired s seqs with
    | error f => rw [hr] at h; cases h
    | ok r =>
      rw [hr] at h
      cases h
      unfold OnNackRequired at hr
      split at hr
      · split at hr
        · cases hr
        · cases hr; exact hwf
      · cases hr
  | onFullFrameRequired =>
    cases h
    show (OnFullFrameRequired s).stream.jitter < 2 ^ 32
    unfold OnFullFrameRequired
    split <;> exact hwf

theorem runOps_jitter_lt (base : BaseReceivePacket) (ops : List Op) :
    ∀ (s s1 : RtpStreamRecv), s.jitter < 2 ^ 32 →
      runOps base s ops = Except.ok s1 → s1.jitter < 2 ^ 32 := by
  induction ops with
  | nil =>
    intro s s1 hwf h
    cases h
    exact hwf
  | cons op ops ih =>
    intro s s1 hwf h
    unfold runOps at h
    cases hop : applyOp base s op with
    | error f => rw [hop] at h; cases h
    | ok s2 =>
      rw [hop] at h
      exact ih s2 s1 (applyOp_jitter_lt base s s2 op hwf hop) h

/-- C10: jitter is 0 on a new stream, and after any run of operations from a stream
whose jitter fits its unsigned 32-bit field, whatever the base tracker, the
packets and the clock readings are, the jitter is a value of that field: it is
not negative and stays below 2^32, and so it is after one more CalculateJitter.
When the transit difference is the minimum int value the sum of line 167 is
negative, and the unsigned field holds its low 32 bits, 4160749568. -/
theorem jitter_nonneg_invariant (base : BaseReceivePacket) (s s1 : RtpStreamRecv)
    (ops : List Op) (hwf : s.jitter < 2 ^ 32) (hrun : runOps base s ops = Except.ok s1) :
    (∀ params, (RtpStreamRecv.new params).jitter = 0)
    ∧ (0 : Int) ≤ (s1.jitter : Int)
    ∧ s1.jitter < 2 ^ 32
    ∧ (∀ now ts, (0 : Int) ≤ ((CalculateJitter s1 now ts).jitter : Int)
        ∧ (CalculateJitter s1 now ts).jitter < 2 ^ 32)
    ∧ (absDelta (transitOf 90000 (2 ^ 31) 0) 0 = INT32_MIN
        ∧ (CalculateJitter (RtpStreamRecv.new videoParams) (2 ^ 31) 0).jitter = 4160749568) := by
  have h1 := runOps_jitter_lt base ops s s1 hwf hrun
  refine ⟨fun _ => rfl, Int.natCast_nonneg _, h1, ?_, by decide, ?_⟩
  · intro now ts
    exact ⟨Int.natCast_nonneg _, CalculateJitter_jitter_lt _ _ _ h1⟩
  · have hd : absDelta (transitOf 90000 (2 ^ 31) 0) 0 = -2147483648 := by decide
    show jitterUpdate 0 (absDelta (transitOf 90000 (2 ^ 31) 0) 0) = 4160749568
    rw [hd, jitterUpdate_eq]
    decide

/-- Instance of C10: a run whose first transit difference is the minimum int
value. -/
theorem jitter_nonneg_invariant_witness :
    (0 : Int) ≤ (minDeltaFinal.jitter : Int) ∧ minDeltaFinal.jitter < 2 ^ 32 :=
  have h := jitter_nonneg_invariant exampleTracker (RtpStreamRecv.new videoParams)
    minDeltaFinal minDeltaOps (by decide) rfl
  ⟨h.2.1, h.2.2.1⟩

end RTC
